import Mathlib

/-!
Verification development for the `dial` package (a DNS-caching dialer).

The embedding below is a shallow model of `src/dial.go`.  External
collaborators and ambient effects are modelled as oracles collected in
an `Env` record:

* `resolver`  models the injected `Resolver.LookupHost` (the cancellation
  context carries no information in the model and is omitted);
* `parseIPOk` models the standard-library predicate `net.ParseIP name != nil`
  (an uninterpreted total predicate on strings);
* `evictIdx`  models the arbitrary first key produced by Go's randomized
  `for k := range` map iteration (the index is taken modulo the size, so
  every entry is a possible victim);
* `randSeq`   models the stream of values drawn from the global `math/rand`
  source: the k-th call of `rand.Intn n` returns `randSeq k % n`; the
  counter `rs` is threaded through `DialContext`.

The injected `Dialer.DialContext` is passed separately (its connection type
is a type parameter).  Go's `nil` map is modelled by `Option Entries` being
`none`: reads of a nil map succeed and find nothing, writes panic.  Run-time
panics (nil-map write, `rand.Intn 0`) are modelled as `Except.error` with the
corresponding Go panic message.  `time.Time`/`time.Duration` are modelled as
integers (nanoseconds); within a single call the two reads of `nowFunc`
(one in `get`, one in `set`) are modelled as returning the same instant.
-/

namespace Dial

abbrev Addr := String
abbrev Time := Int

/-- Embeds `lookupResult` (dial.go lines 14-17). -/
structure LookupResult where
  expires : Time
  addrs : List Addr
deriving Repr, DecidableEq

/-- The cache map `entries map[string]*lookupResult`, as an association list
with at most one binding per key. -/
abbrev Entries := List (String × LookupResult)

/-- Embeds `Options` (dial.go lines 37-42); the two collaborator fields live
in `Env` and the dialer parameter of `DialContext` instead. -/
structure Options where
  ttl : Time
  maxItems : Int
deriving Repr, DecidableEq

/-- Embeds `defaultOptions` (dial.go lines 49-52): ttl ten seconds in
nanoseconds, maxItems 1024. -/
def defaultOptions : Options := ⟨10 * 1000000000, 1024⟩

/-- Embeds the `Cache` struct (dial.go lines 30-34): options plus the entries
map, where `none` models a Go nil map. -/
structure Cache where
  options : Options
  entries : Option Entries
deriving Repr, DecidableEq

/-- An `OptionFunc` mutates the options; modelled functionally. -/
abbrev OptionFunc := Options → Options

/-- Embeds `WithTTL` (dial.go lines 81-85). -/
def WithTTL (ttl : Time) : OptionFunc := fun o => ⟨ttl, o.maxItems⟩

/-- Embeds `WithMaxItems` (dial.go lines 89-93). -/
def WithMaxItems (m : Int) : OptionFunc := fun o => ⟨o.ttl, m⟩

/-- The options produced by `New`: defaults, then each option function
applied in order (dial.go lines 56-62). -/
def applyOpts (fs : List OptionFunc) : Options :=
  fs.foldl (fun o f => f o) defaultOptions

/-- Embeds `New` (dial.go lines 55-77): the entries map is allocated only
when `maxItems > 0`; otherwise it stays nil (`none`).  The resolver/dialer
defaulting concerns only the collaborators and is outside the model. -/
def New (fs : List OptionFunc) : Cache :=
  ⟨applyOpts fs, if 0 < (applyOpts fs).maxItems then some [] else none⟩

/-- The oracles for the external collaborators and ambient nondeterminism. -/
structure Env where
  resolver : String → List Addr × Option String
  parseIPOk : String → Bool
  evictIdx : Entries → Nat
  randSeq : Nat → Nat

/-- Embeds `Cache.get` (dial.go lines 114-125) on an allocated map: the entry
is returned only when present and `r.expires.After(now)`, i.e. `now < expires`;
otherwise `(nil, false)`. -/
def get (es : Entries) (now : Time) (name : String) : List Addr × Bool :=
  match es.lookup name with
  | some r => if now < r.expires then (r.addrs, true) else ([], false)
  | none => ([], false)

/-- `Cache.get` on the possibly-nil map: reading a Go nil map finds nothing. -/
def getOpt (eo : Option Entries) (now : Time) (name : String) : List Addr × Bool :=
  match eo with
  | none => ([], false)
  | some es => get es now name

/-- Map update `c.entries[name] = &result`: replace any existing binding. -/
def mapInsert (es : Entries) (name : String) (r : LookupResult) : Entries :=
  (name, r) :: es.filter (fun p => p.1 != name)

/-- Embeds `Cache.set` (dial.go lines 127-145) on an allocated map: insert
with `expires = now + ttl`, then, if the size exceeds `maxItems`, delete the
first key yielded by the (arbitrary-order) map iteration. -/
def setGo (env : Env) (opts : Options) (es : Entries) (now : Time)
    (name : String) (addrs : List Addr) : Entries :=
  let e1 := mapInsert es name ⟨now + opts.ttl, addrs⟩
  if opts.maxItems < (e1.length : Int) then
    e1.eraseIdx (env.evictIdx e1 % e1.length)
  else e1

/-- Go panic message for a write to a nil map. -/
def nilMapPanic : String := "assignment to entry in nil map"

/-- Go panic message raised by `rand.Intn` on a non-positive bound. -/
def intnPanic : String := "invalid argument to Intn"

/-- `Cache.set` on the possibly-nil map: writing to a Go nil map panics. -/
def setOpt (env : Env) (opts : Options) (eo : Option Entries) (now : Time)
    (name : String) (addrs : List Addr) : Except String (Option Entries) :=
  match eo with
  | none => .error nilMapPanic
  | some es => .ok (some (setGo env opts es now name addrs))

/-- The constant `noSuchHost` (dial.go line 147); `errNoSuchHost` is an error
with exactly this message, modelled as the message itself. -/
def noSuchHost : String := "no such host"

/-- Embeds `strings.Contains s sub`. -/
def containsSubstr (s sub : String) : Bool :=
  s.toList.tails.any (fun t => sub.toList.isPrefixOf t)

deriving instance DecidableEq for Except

/-- The observable outcome of one `Cache.lookup` call: the returned
`(addrs, err)` pair (or a panic), the entries map after the call, and how
many times the Resolver collaborator was invoked during the call. -/
structure LookupOut where
  res : Except String (List Addr × Option String)
  entries : Option Entries
  calls : Nat
deriving Repr, DecidableEq

/-- The tail of `Cache.lookup` after the resolver call and the not-found
check (dial.go lines 179-186): zero addresses are negative-cached and
reported as `errNoSuchHost`; otherwise the addresses are cached and
returned.  Reached with `calls = 1` resolver invocations. -/
def afterResolve (env : Env) (opts : Options) (eo : Option Entries)
    (now : Time) (name : String) (addrs : List Addr) : LookupOut :=
  if addrs.isEmpty then
    match setOpt env opts eo now name [] with
    | .error p => ⟨.error p, eo, 1⟩
    | .ok e2 => ⟨.ok ([], some noSuchHost), e2, 1⟩
  else
    match setOpt env opts eo now name addrs with
    | .error p => ⟨.error p, eo, 1⟩
    | .ok e2 => ⟨.ok (addrs, none), e2, 1⟩

/-- Embeds `Cache.lookup` (dial.go lines 151-187).  Note that in the source a
resolver error whose message does not contain "no such host" is NOT returned:
control falls through to the `len(addrs) == 0` check, exactly as modelled by
the `containsSubstr .. = false` branch below. -/
def lookup (env : Env) (opts : Options) (eo : Option Entries) (now : Time)
    (name : String) : LookupOut :=
  if opts.maxItems == 0 || opts.ttl == 0 then
    ⟨.ok (env.resolver name), eo, 1⟩
  else
    match getOpt eo now name with
    | (addrs, true) =>
      if addrs.isEmpty then ⟨.ok ([], some noSuchHost), eo, 0⟩
      else ⟨.ok (addrs, none), eo, 0⟩
    | (_, false) =>
      if env.parseIPOk name then
        match setOpt env opts eo now name [name] with
        | .error p => ⟨.error p, eo, 0⟩
        | .ok e2 => ⟨.ok ([name], none), e2, 0⟩
      else
        match env.resolver name with
        | (addrs, some e) =>
          if containsSubstr e noSuchHost then
            match setOpt env opts eo now name [] with
            | .error p => ⟨.error p, eo, 1⟩
            | .ok e2 => ⟨.ok ([], some noSuchHost), e2, 1⟩
          else afterResolve env opts eo now name addrs
        | (addrs, none) => afterResolve env opts eo now name addrs

/-- Embeds `rand.Intn` (consuming the `rs`-th element of the global random
stream): panics on a non-positive bound, otherwise yields a value below `n`. -/
def randIntn (env : Env) (rs n : Nat) : Except String Nat :=
  if n == 0 then .error intnPanic else .ok (env.randSeq rs % n)

/-- The observable outcome of one `Cache.DialContext` call: the returned
`(conn, err)` pair (or a panic), the entries map afterwards, the number of
Resolver invocations, and the state of the random stream afterwards. -/
structure DialOut (Conn : Type) where
  res : Except String (Option Conn × Option String)
  entries : Option Entries
  calls : Nat
  randState : Nat

/-- Embeds `Cache.DialContext` (dial.go lines 190-204): resolve, propagate a
lookup failure as `(nil, err)`, dial the single address directly when exactly
one resolved, otherwise dial the address at a fresh random index. -/
def DialContext {Conn : Type} (env : Env)
    (dialer : String → String → Option Conn × Option String)
    (opts : Options) (eo : Option Entries) (now : Time) (rs : Nat)
    (network name : String) : DialOut Conn :=
  match lookup env opts eo now name with
  | ⟨.error p, ents, k⟩ => ⟨.error p, ents, k, rs⟩
  | ⟨.ok (_, some e), ents, k⟩ => ⟨.ok (none, some e), ents, k, rs⟩
  | ⟨.ok (addrs, none), ents, k⟩ =>
    if addrs.length == 1 then
      ⟨.ok (dialer network (addrs.getD 0 "")), ents, k, rs⟩
    else
      match randIntn env rs addrs.length with
      | .error p => ⟨.error p, ents, k, rs⟩
      | .ok idx => ⟨.ok (dialer network (addrs.getD idx "")), ents, k, rs + 1⟩

/-! Concrete environments used to instantiate the theorems below. -/

/-- A resolver that always fails with a transient error. -/
def tEnvTransient : Env :=
  ⟨fun _ => ([], some "i/o timeout"), fun _ => false, fun _ => 0, fun _ => 0⟩

/-- A resolver that always fails with the not-found error; map iteration
yields the head entry first. -/
def tEnvNotFound : Env :=
  ⟨fun _ => ([], some noSuchHost), fun _ => false, fun _ => 0, fun _ => 0⟩

/-- A resolver that answers every name with an unrelated address while the
string "127.0.0.1" parses as an IP literal. -/
def tEnvIpLiteral : Env :=
  ⟨fun _ => (["10.9.9.9"], none), fun s => s == "127.0.0.1", fun _ => 0, fun _ => 0⟩

/-- A resolver that succeeds with zero addresses. -/
def tEnvEmptyOk : Env :=
  ⟨fun _ => ([], none), fun _ => false, fun _ => 0, fun _ => 0⟩

/-- A dialer over `Conn := String` that records the dialed address. -/
def tDialer : String → String → Option String × Option String :=
  fun _ a => (some a, none)

/-- A store holding one unrelated entry. -/
def esOther : Entries := [("other", ⟨50, ["10.0.0.1"]⟩)]

/-- A store holding one entry that expires at time 5. -/
def esExpired : Entries := [("h", ⟨5, ["1.2.3.4"]⟩)]

/-- A store holding two entries. -/
def esPair : Entries := [("a", ⟨5, []⟩), ("b", ⟨5, []⟩)]

/-- A store holding one fresh entry with two addresses. -/
def esMulti : Entries := [("h", ⟨10, ["1.1.1.1", "2.2.2.2"]⟩)]

/-- The resolver exhibits a not-found condition for `name`: either it fails
with an error whose message contains "no such host", or it succeeds with
zero addresses. -/
def notFoundResolver (env : Env) (name : String) : Prop :=
  (∃ e, (env.resolver name).2 = some e ∧ containsSubstr e noSuchHost = true) ∨
  env.resolver name = ([], none)

/-! Helper lemmas shared by several claims. -/

theorem mapInsert_length_le (es : Entries) (name : String) (r : LookupResult) :
    (mapInsert es name r).length ≤ es.length + 1 := by
  simp only [mapInsert, List.length_cons]
  exact Nat.succ_le_succ (List.length_filter_le _ _)

theorem mapInsert_lookup_self (es : Entries) (name : String) (r : LookupResult) :
    (mapInsert es name r).lookup name = some r := by
  simp [mapInsert, List.lookup]

theorem setGo_no_evict (env : Env) (opts : Options) (es : Entries) (now : Time)
    (name : String) (addrs : List Addr) (h : (es.length : Int) < opts.maxItems) :
    setGo env opts es now name addrs = mapInsert es name ⟨now + opts.ttl, addrs⟩ := by
  have hle : (mapInsert es name ⟨now + opts.ttl, addrs⟩).length ≤ es.length + 1 :=
    mapInsert_length_le es name ⟨now + opts.ttl, addrs⟩
  simp only [setGo]
  rw [if_neg]
  omega

theorem enabledCond (opts : Options) (h1 : opts.maxItems ≠ 0) (h2 : opts.ttl ≠ 0) :
    (opts.maxItems == 0 || opts.ttl == 0) = false := by
  simp [h1, h2]

theorem lookup_nilmap (env : Env) (opts : Options) (now : Time) (name : String)
    (hcond : (opts.maxItems == 0 || opts.ttl == 0) = false)
    (hip : env.parseIPOk name = false) :
    lookup env opts none now name = ⟨.error nilMapPanic, none, 1⟩ := by
  rcases hr : env.resolver name with ⟨ra, re⟩
  simp only [lookup, hcond, getOpt, hip, hr, Bool.false_eq_true, if_false]
  rcases re with _ | e
  · simp only [afterResolve, setOpt]
    split <;> rfl
  · simp only [afterResolve, setOpt]
    split
    · rfl
    · split <;> rfl

theorem getD_mem_of_lt (l : List Addr) (i : Nat) (h : i < l.length) :
    l.getD i "" ∈ l := by
  induction l generalizing i with
  | nil => simp at h
  | cons x xs ih =>
    cases i with
    | zero =>
      have hx : (x :: xs).getD 0 "" = x := rfl
      rw [hx]
      exact List.mem_cons_self x xs
    | succ j =>
      have hj : j < xs.length := Nat.lt_of_succ_lt_succ h
      have hx : (x :: xs).getD (j + 1) "" = xs.getD j "" := rfl
      rw [hx]
      exact List.mem_cons_of_mem _ (ih j hj)

theorem dialContext_single {Conn : Type} (env : Env)
    (dialer : String → String → Option Conn × Option String) (opts : Options)
    (eo : Option Entries) (now : Time) (rs : Nat) (network name : String)
    (addrs : List Addr) (ents : Option Entries) (k : Nat)
    (hl : lookup env opts eo now name = ⟨.ok (addrs, none), ents, k⟩)
    (h1 : addrs.length = 1) :
    DialContext env dialer opts eo now rs network name =
      ⟨.ok (dialer network (addrs.getD 0 "")), ents, k, rs⟩ := by
  simp only [DialContext, hl, h1]
  rfl

theorem dialContext_multi {Conn : Type} (env : Env)
    (dialer : String → String → Option Conn × Option String) (opts : Options)
    (eo : Option Entries) (now : Time) (rs : Nat) (network name : String)
    (addrs : List Addr) (ents : Option Entries) (k : Nat)
    (hl : lookup env opts eo now name = ⟨.ok (addrs, none), ents, k⟩)
    (h2 : 2 ≤ addrs.length) :
    DialContext env dialer opts eo now rs network name =
      ⟨.ok (dialer network (addrs.getD (env.randSeq rs % addrs.length) "")),
        ents, k, rs + 1⟩ := by
  have hne : (addrs.length == 1) = false := beq_eq_false_iff_ne.mpr (by omega)
  have hn0 : (addrs.length == 0) = false := beq_eq_false_iff_ne.mpr (by omega)
  simp only [DialContext, hl, hne, Bool.false_eq_true, if_false, randIntn, hn0]

theorem dialContext_empty {Conn : Type} (env : Env)
    (dialer : String → String → Option Conn × Option String) (opts : Options)
    (eo : Option Entries) (now : Time) (rs : Nat) (network name : String)
    (ents : Option Entries) (k : Nat)
    (hl : lookup env opts eo now name = ⟨.ok ([], none), ents, k⟩) :
    DialContext env dialer opts eo now rs network name =
      ⟨.error intnPanic, ents, k, rs⟩ := by
  simp only [DialContext, hl]
  rfl

/-! The claims. -/

/-- Claim C1: the claim says a resolver failure whose message does not
indicate "no such host" is propagated unchanged and nothing is written to
the cache.  The code disagrees: `lookup` inspects the error but never
returns it, control falls through to the empty-address check, so a
transient failure with an empty address slice is negative-cached and
reported as the canonical "no such host" error.  This theorem evaluates
the model at such an input: resolver error "i/o timeout", caching enabled,
empty store; the result is the not-found error, a cached empty entry, and
one resolver call. -/
theorem transientErrorCachedAsNotFound :
    lookup tEnvTransient ⟨1000, 10⟩ (some []) 0 "example.com" =
      ⟨.ok ([], some noSuchHost), some [("example.com", ⟨1000, []⟩)], 1⟩ := rfl

/-- Claim C5: with `ttl = 0` or `maxItems = 0` the cache is bypassed: one
resolver invocation, its `(addrs, err)` pair returned verbatim, and the
store untouched. -/
theorem disabledCacheDelegatesToResolver (env : Env) (opts : Options)
    (eo : Option Entries) (now : Time) (name : String)
    (h : opts.ttl = 0 ∨ opts.maxItems = 0) :
    lookup env opts eo now name = ⟨.ok (env.resolver name), eo, 1⟩ := by
  have hc : (opts.maxItems == 0 || opts.ttl == 0) = true := by
    rcases h with h | h <;> simp [h]
  simp [lookup, hc]

/-- Witness for C5 at a concrete input. -/
theorem disabledCacheDelegatesToResolver_witness :
    lookup tEnvNotFound ⟨0, 1024⟩ (some []) 0 "example.com" =
      ⟨.ok ([], some noSuchHost), some [], 1⟩ :=
  disabledCacheDelegatesToResolver tEnvNotFound ⟨0, 1024⟩ (some []) 0
    "example.com" (Or.inl rfl)

/-- Claim C3: for `maxItems > 0`, a `set` on a store within the bound keeps
it within the bound; when the insertion makes the map exceed `maxItems`,
exactly one entry is deleted before `set` returns (the post-`set` size is
exactly one less than the size right after the insert, which itself exceeds
the initial size by at most the one inserted entry); when the insertion does
not exceed `maxItems`, nothing is deleted at all. -/
theorem setPreservesCapacityBound (env : Env) (opts : Options) (es : Entries)
    (now : Time) (name : String) (addrs : List Addr)
    (hmax : 0 < opts.maxItems) (hsize : (es.length : Int) ≤ opts.maxItems) :
    ((setGo env opts es now name addrs).length : Int) ≤ opts.maxItems ∧
    (opts.maxItems < ((mapInsert es name ⟨now + opts.ttl, addrs⟩).length : Int) →
      (setGo env opts es now name addrs).length + 1 =
        (mapInsert es name ⟨now + opts.ttl, addrs⟩).length) ∧
    (((mapInsert es name ⟨now + opts.ttl, addrs⟩).length : Int) ≤ opts.maxItems →
      setGo env opts es now name addrs =
        mapInsert es name ⟨now + opts.ttl, addrs⟩) ∧
    (mapInsert es name ⟨now + opts.ttl, addrs⟩).length ≤ es.length + 1 := by
  have hml : (mapInsert es name ⟨now + opts.ttl, addrs⟩).length ≤ es.length + 1 :=
    mapInsert_length_le es name ⟨now + opts.ttl, addrs⟩
  have hmpos : 0 < (mapInsert es name ⟨now + opts.ttl, addrs⟩).length := by
    simp [mapInsert]
  simp only [setGo]
  by_cases hc : opts.maxItems <
      ((mapInsert es name ⟨now + opts.ttl, addrs⟩).length : Int)
  · rw [if_pos hc]
    have hidx : env.evictIdx (mapInsert es name ⟨now + opts.ttl, addrs⟩) %
        (mapInsert es name ⟨now + opts.ttl, addrs⟩).length <
        (mapInsert es name ⟨now + opts.ttl, addrs⟩).length :=
      Nat.mod_lt _ hmpos
    have hlen := List.length_eraseIdx_add_one hidx
    refine ⟨by omega, fun _ => by omega, fun h => absurd hc (not_lt.mpr h), hml⟩
  · rw [if_neg hc]
    exact ⟨by omega, fun h => absurd h hc, fun _ => rfl, hml⟩

/-- Witness for C3 at a concrete input: inserting a third key into a store at
capacity 2 fires eviction exactly once — the size right after the insert is
3 and the post-`set` size is exactly 2, within the bound. -/
theorem setPreservesCapacityBound_witness :
    (((setGo tEnvNotFound ⟨10, 2⟩ esPair 0 "c" ["1.1.1.1"]).length : Int) ≤ 2 ∧
      (setGo tEnvNotFound ⟨10, 2⟩ esPair 0 "c" ["1.1.1.1"]).length + 1 =
        (mapInsert esPair "c" ⟨10, ["1.1.1.1"]⟩).length) :=
  ⟨(setPreservesCapacityBound tEnvNotFound ⟨10, 2⟩ esPair 0 "c" ["1.1.1.1"]
      (by decide) (by decide)).1,
    (setPreservesCapacityBound tEnvNotFound ⟨10, 2⟩ esPair 0 "c" ["1.1.1.1"]
      (by decide) (by decide)).2.1 (by decide)⟩

/-- Claim C4: `get` returns `(a, true)` exactly when an entry is present
whose expiry lies strictly in the future and holds `a`; a present but
expired entry is reported absent; and (third conjunct) a `get` hit leaves
the store exactly as it was — `get` never removes or mutates entries
(in the model `get` is a pure observer, and `lookup` returns the store
unchanged on every hit). -/
theorem getPresentFreshCharacterization (es : Entries) (now : Time)
    (name : String) (a : List Addr) :
    (get es now name = (a, true) ↔
      ∃ r, es.lookup name = some r ∧ now < r.expires ∧ r.addrs = a) ∧
    ((get es now name).2 = false ↔
      ∀ r, es.lookup name = some r → r.expires ≤ now) ∧
    (∀ (env : Env) (opts : Options), (get es now name).2 = true →
      (lookup env opts (some es) now name).entries = some es) := by
  refine ⟨?_, ?_, ?_⟩
  · constructor
    · intro hg
      rcases hl : es.lookup name with _ | r
      · simp [get, hl] at hg
      · by_cases he : now < r.expires
        · simp [get, hl, he] at hg
          exact ⟨r, rfl, he, hg⟩
        · simp [get, hl, he] at hg
    · rintro ⟨r, hr, he, ha⟩
      simp [get, hr, he, ha]
  · constructor
    · intro hfalse r hr
      by_contra hlt
      push_neg at hlt
      have hg : get es now name = (r.addrs, true) := by simp [get, hr, hlt]
      rw [hg] at hfalse
      simp at hfalse
    · intro hall
      rcases hl : es.lookup name with _ | r
      · simp [get, hl]
      · have h1 := hall r hl
        have h2 : ¬ now < r.expires := not_lt.mpr h1
        simp [get, hl, h2]
  · intro env opts hget
    rcases hg : get es now name with ⟨ga, gb⟩
    rw [hg] at hget
    simp only at hget
    subst hget
    simp only [lookup, getOpt, hg]
    split
    · rfl
    · split <;> rfl

/-- Witness for C4 at a concrete input: an entry present with expiry 5 is
reported absent at time 5. -/
theorem getPresentFreshCharacterization_witness :
    (get esExpired 5 "h").2 = false :=
  (getPresentFreshCharacterization esExpired 5 "h" []).2.1.mpr (by
    intro r hr
    have h2 : some (LookupResult.mk 5 ["1.2.3.4"]) = some r := hr
    injection h2 with h3
    rw [← h3])

/-- Counterexample for C2 as stated: capacity eviction may remove the freshly
inserted negative entry, because `set` deletes an arbitrary entry once the
size exceeds `maxItems` and the fresh entry is a legitimate victim of Go's
arbitrary map-iteration order.  Concretely, with `maxItems = 1`, one
unrelated entry present, and iteration yielding the fresh key first, the
first call returns the not-found error but the second call within the TTL
window invokes the resolver again. -/
theorem freshNegativeEntryEvictedBreaksMemo :
    (lookup tEnvNotFound ⟨100, 1⟩ (some esOther) 0 "testing123").res =
      .ok ([], some noSuchHost) ∧
    (lookup tEnvNotFound ⟨100, 1⟩
        (lookup tEnvNotFound ⟨100, 1⟩ (some esOther) 0 "testing123").entries
        1 "testing123").calls ≠ 0 := by
  exact ⟨rfl, by decide⟩

/-- Claim C2 (amended): with caching enabled, a miss for a non-IP-literal
name whose resolver exhibits a not-found condition (error containing "no
such host", or success with zero addresses — both cases produce the
identical outcome below) makes `DialContext` return the not-found error and
cache an empty entry; provided the store held fewer than `maxItems` entries
(so the insertion cannot trigger eviction), a second call within the TTL
window returns the not-found error again with zero resolver invocations. -/
theorem negativeCachingWithinTTLWindow (Conn : Type) (env : Env)
    (dialer : String → String → Option Conn × Option String) (opts : Options)
    (es : Entries) (now1 now2 : Time) (rs1 rs2 : Nat) (network name : String)
    (httl : opts.ttl ≠ 0)
    (hcap : (es.length : Int) < opts.maxItems)
    (hmiss : (get es now1 name).2 = false)
    (hip : env.parseIPOk name = false)
    (hres : notFoundResolver env name)
    (hwin : now2 < now1 + opts.ttl) :
    DialContext env dialer opts (some es) now1 rs1 network name =
      ⟨.ok (none, some noSuchHost),
        some (mapInsert es name ⟨now1 + opts.ttl, []⟩), 1, rs1⟩ ∧
    DialContext env dialer opts
        (some (mapInsert es name ⟨now1 + opts.ttl, []⟩)) now2 rs2 network name =
      ⟨.ok (none, some noSuchHost),
        some (mapInsert es name ⟨now1 + opts.ttl, []⟩), 0, rs2⟩ := by
  have hmaxne : opts.maxItems ≠ 0 := by
    have h0 : (0 : Int) ≤ (es.length : Int) := Int.natCast_nonneg _
    omega
  have hcond := enabledCond opts hmaxne httl
  have hset : setGo env opts es now1 name [] =
      mapInsert es name ⟨now1 + opts.ttl, []⟩ :=
    setGo_no_evict env opts es now1 name [] hcap
  rcases hg : get es now1 name with ⟨ga, gb⟩
  rw [hg] at hmiss
  simp only at hmiss
  subst hmiss
  have hl1 : lookup env opts (some es) now1 name =
      ⟨.ok ([], some noSuchHost),
        some (mapInsert es name ⟨now1 + opts.ttl, []⟩), 1⟩ := by
    rcases hres with ⟨e, he2, hec⟩ | hre
    · rcases hr : env.resolver name with ⟨ra, re⟩
      rw [hr] at he2
      simp only at he2
      subst he2
      simp only [lookup, hcond, getOpt, hg, hip, hr, hec, setOpt, hset,
        Bool.false_eq_true, if_false, if_true]
    · simp only [lookup, hcond, getOpt, hg, hip, hre, afterResolve, setOpt,
        hset, List.isEmpty_nil, Bool.false_eq_true, if_false, if_true]
  have hg2 : get (mapInsert es name ⟨now1 + opts.ttl, []⟩) now2 name =
      ([], true) := by
    simp [get, mapInsert_lookup_self, hwin]
  have hl2 : lookup env opts (some (mapInsert es name ⟨now1 + opts.ttl, []⟩))
      now2 name =
      ⟨.ok ([], some noSuchHost),
        some (mapInsert es name ⟨now1 + opts.ttl, []⟩), 0⟩ := by
    simp only [lookup, hcond, getOpt, hg2, List.isEmpty_nil,
      Bool.false_eq_true, if_false, if_true]
  constructor
  · simp only [DialContext, hl1]
  · simp only [DialContext, hl2]

/-- Witness for C2 (amended) at a concrete input. -/
theorem negativeCachingWithinTTLWindow_witness :
    DialContext tEnvNotFound tDialer ⟨100, 5⟩ (some []) 0 0 "tcp" "testing123" =
      ⟨.ok (none, some noSuchHost), some [("testing123", ⟨100, []⟩)], 1, 0⟩ ∧
    DialContext tEnvNotFound tDialer ⟨100, 5⟩
        (some [("testing123", ⟨100, []⟩)]) 1 0 "tcp" "testing123" =
      ⟨.ok (none, some noSuchHost), some [("testing123", ⟨100, []⟩)], 0, 0⟩ :=
  negativeCachingWithinTTLWindow String tEnvNotFound tDialer ⟨100, 5⟩ [] 0 1 0 0
    "tcp" "testing123" (by decide) (by decide) rfl rfl
    (Or.inl ⟨noSuchHost, rfl, by decide⟩) (by decide)

/-- Counterexample for C6 as stated: with caching disabled the IP-literal
short-circuit is never reached, so dialing the literal "127.0.0.1" invokes
the Resolver collaborator and dials whatever it returned instead of the
literal. -/
theorem ipLiteralResolvedWhenCachingDisabled :
    (DialContext tEnvIpLiteral tDialer ⟨0, 1024⟩ (some []) 0 0 "tcp"
        "127.0.0.1").calls ≠ 0 ∧
    (DialContext tEnvIpLiteral tDialer ⟨0, 1024⟩ (some []) 0 0 "tcp"
        "127.0.0.1").res = .ok (some "10.9.9.9", none) := by
  exact ⟨by decide, rfl⟩

/-- Claim C6 (amended): with caching enabled, a cache miss for a host that
parses as an IP literal dials the literal directly with zero Resolver
invocations, and stores the single-element list `[host]` via `set` (which
places it in the map under `host` whenever the insertion does not overflow
capacity). -/
theorem ipLiteralDialedDirectlyWhenCachingEnabled (Conn : Type) (env : Env)
    (dialer : String → String → Option Conn × Option String) (opts : Options)
    (es : Entries) (now : Time) (rs : Nat) (network name : String)
    (httl : opts.ttl ≠ 0) (hmax : opts.maxItems ≠ 0)
    (hmiss : (get es now name).2 = false)
    (hip : env.parseIPOk name = true) :
    DialContext env dialer opts (some es) now rs network name =
      ⟨.ok (dialer network name), some (setGo env opts es now name [name]),
        0, rs⟩ ∧
    ((es.length : Int) < opts.maxItems →
      setGo env opts es now name [name] =
        mapInsert es name ⟨now + opts.ttl, [name]⟩) := by
  have hcond := enabledCond opts hmax httl
  rcases hg : get es now name with ⟨ga, gb⟩
  rw [hg] at hmiss
  simp only at hmiss
  subst hmiss
  have hl : lookup env opts (some es) now name =
      ⟨.ok ([name], none), some (setGo env opts es now name [name]), 0⟩ := by
    simp only [lookup, hcond, getOpt, hg, hip, setOpt,
      Bool.false_eq_true, if_false, if_true]
  constructor
  · simp only [DialContext, hl, List.length_singleton, List.getD]
    rfl
  · intro hcap
    exact setGo_no_evict env opts es now name [name] hcap

/-- Witness for C6 (amended) at a concrete input. -/
theorem ipLiteralDialedDirectlyWhenCachingEnabled_witness :
    DialContext tEnvIpLiteral tDialer ⟨100, 5⟩ (some []) 0 0 "tcp"
        "127.0.0.1" =
      ⟨.ok (some "127.0.0.1", none),
        some [("127.0.0.1", ⟨100, ["127.0.0.1"]⟩)], 0, 0⟩ :=
  (ipLiteralDialedDirectlyWhenCachingEnabled String tEnvIpLiteral tDialer
    ⟨100, 5⟩ [] 0 0 "tcp" "127.0.0.1" (by decide) (by decide) rfl rfl).1

/-- Claim C9: a cache constructed with `maxItems < 0` and `ttl ≠ 0` has no
allocated entries map (`New` allocates only when `maxItems > 0`), yet the
cached path is still taken, so the first lookup of an uncached non-IP
hostname calls the resolver once and then panics writing the nil map
inside `set`. -/
theorem negativeMaxItemsNilMapPanic (env : Env) (fs : List OptionFunc)
    (now : Time) (name : String)
    (hmax : (New fs).options.maxItems < 0) (httl : (New fs).options.ttl ≠ 0)
    (hip : env.parseIPOk name = false) :
    (New fs).entries = none ∧
    (lookup env (New fs).options (New fs).entries now name).res =
      .error nilMapPanic ∧
    (lookup env (New fs).options (New fs).entries now name).calls = 1 := by
  have hma : (applyOpts fs).maxItems < 0 := hmax
  have hent : (New fs).entries = none := by
    simp only [New]
    rw [if_neg]
    omega
  have hmaxne : (New fs).options.maxItems ≠ 0 := by omega
  have hcond := enabledCond (New fs).options hmaxne httl
  have hlook := lookup_nilmap env (New fs).options now name hcond hip
  rw [hent, hlook]
  exact ⟨rfl, rfl, rfl⟩

/-- Witness for C9 at a concrete input. -/
theorem negativeMaxItemsNilMapPanic_witness :
    (New [WithTTL 5, WithMaxItems (-1)]).entries = none ∧
    (lookup tEnvTransient (New [WithTTL 5, WithMaxItems (-1)]).options
        (New [WithTTL 5, WithMaxItems (-1)]).entries 0 "example.com").res =
      .error nilMapPanic ∧
    (lookup tEnvTransient (New [WithTTL 5, WithMaxItems (-1)]).options
        (New [WithTTL 5, WithMaxItems (-1)]).entries 0 "example.com").calls =
      1 :=
  negativeMaxItemsNilMapPanic tEnvTransient [WithTTL 5, WithMaxItems (-1)] 0
    "example.com" (by decide) (by decide) rfl

/-- Claim C7: when resolution succeeds with exactly one address, every call
dials exactly that address and the random stream is not consumed; with more
than one address, each call draws a fresh value from the random stream
(advancing its state), selects the index it determines, and the dialed
address is a member of the resolved list. -/
theorem addressSelectionPerCall (Conn : Type) (env : Env)
    (dialer : String → String → Option Conn × Option String) (opts : Options)
    (eo : Option Entries) (now : Time) (rs : Nat) (network name : String)
    (addrs : List Addr) (ents : Option Entries) (k : Nat)
    (hl : lookup env opts eo now name = ⟨.ok (addrs, none), ents, k⟩) :
    (addrs.length = 1 →
      DialContext env dialer opts eo now rs network name =
        ⟨.ok (dialer network (addrs.getD 0 "")), ents, k, rs⟩) ∧
    (2 ≤ addrs.length →
      DialContext env dialer opts eo now rs network name =
        ⟨.ok (dialer network (addrs.getD (env.randSeq rs % addrs.length) "")),
          ents, k, rs + 1⟩ ∧
      addrs.getD (env.randSeq rs % addrs.length) "" ∈ addrs) := by
  constructor
  · intro h1
    exact dialContext_single env dialer opts eo now rs network name addrs ents
      k hl h1
  · intro h2
    refine ⟨dialContext_multi env dialer opts eo now rs network name addrs ents
      k hl h2, ?_⟩
    exact getD_mem_of_lt addrs _ (Nat.mod_lt _ (by omega))

/-- Witness for C7 at a concrete input: a cached two-address entry dials the
address at the index drawn from the random stream and advances the stream. -/
theorem addressSelectionPerCall_witness :
    DialContext tEnvNotFound tDialer ⟨10, 5⟩ (some esMulti) 0 0 "tcp" "h" =
      ⟨.ok (some "1.1.1.1", none), some esMulti, 0, 1⟩ ∧
    "1.1.1.1" ∈ ["1.1.1.1", "2.2.2.2"] :=
  (addressSelectionPerCall String tEnvNotFound tDialer ⟨10, 5⟩ (some esMulti) 0
    0 "tcp" "h" ["1.1.1.1", "2.2.2.2"] (some esMulti) 0 rfl).2 (by decide)

/-- Claim C8: whenever resolution succeeds, the dial step never changes the
store (its entries are exactly those left by `lookup`, whatever the
Connector does), and whenever at least one address resolved the call
returns the Connector collaborator's `(conn, err)` pair verbatim for some
member of the resolved list — a connect-time failure is never turned into
a resolution error and never invalidates a cache entry. -/
theorem connectorResultReturnedVerbatim (Conn : Type) (env : Env)
    (dialer : String → String → Option Conn × Option String) (opts : Options)
    (eo : Option Entries) (now : Time) (rs : Nat) (network name : String)
    (addrs : List Addr) (ents : Option Entries) (k : Nat)
    (hl : lookup env opts eo now name = ⟨.ok (addrs, none), ents, k⟩) :
    (DialContext env dialer opts eo now rs network name).entries = ents ∧
    (addrs ≠ [] → ∃ a, a ∈ addrs ∧
      (DialContext env dialer opts eo now rs network name).res =
        .ok (dialer network a)) := by
  by_cases h1 : addrs.length = 1
  · rw [dialContext_single env dialer opts eo now rs network name addrs ents k
      hl h1]
    refine ⟨rfl, fun _ => ⟨addrs.getD 0 "", ?_, rfl⟩⟩
    exact getD_mem_of_lt addrs 0 (by omega)
  · by_cases h0 : addrs.length = 0
    · have he : addrs = [] := List.length_eq_zero.mp h0
      subst he
      rw [dialContext_empty env dialer opts eo now rs network name ents k hl]
      exact ⟨rfl, fun hne => absurd rfl hne⟩
    · have h2 : 2 ≤ addrs.length := by omega
      rw [dialContext_multi env dialer opts eo now rs network name addrs ents k
        hl h2]
      refine ⟨rfl, fun _ => ⟨addrs.getD (env.randSeq rs % addrs.length) "", ?_,
        rfl⟩⟩
      exact getD_mem_of_lt addrs _ (Nat.mod_lt _ (by omega))

/-- Witness for C8 at a concrete input: a cached single-address entry is
dialed and the Connector's pair comes back verbatim with the store intact. -/
theorem connectorResultReturnedVerbatim_witness :
    (DialContext tEnvNotFound tDialer ⟨10, 5⟩ (some esExpired) 0 0 "tcp"
        "h").entries = some esExpired ∧
    (∃ a, a ∈ (["1.2.3.4"] : List Addr) ∧
      (DialContext tEnvNotFound tDialer ⟨10, 5⟩ (some esExpired) 0 0 "tcp"
        "h").res = .ok (tDialer "tcp" a)) :=
  ⟨(connectorResultReturnedVerbatim String tEnvNotFound tDialer ⟨10, 5⟩
      (some esExpired) 0 0 "tcp" "h" ["1.2.3.4"] (some esExpired) 0 rfl).1,
    (connectorResultReturnedVerbatim String tEnvNotFound tDialer ⟨10, 5⟩
      (some esExpired) 0 0 "tcp" "h" ["1.2.3.4"] (some esExpired) 0 rfl).2
      (by decide)⟩

/-- Claim C10: with caching enabled every successful `lookup` yields a
non-empty address list, so the random index in `DialContext` ranges over a
positive length; with caching disabled a resolver result of zero addresses
and no error flows through unchanged and `DialContext` reaches the random
selection with an empty list, hitting the `rand.Intn 0` panic. -/
theorem resolvedNonemptyOrIntnPanic (Conn : Type) (env : Env)
    (dialer : String → String → Option Conn × Option String) (opts : Options)
    (eo : Option Entries) (now : Time) (rs : Nat) (network name : String)
    (addrs : List Addr) (ents : Option Entries) (k : Nat) :
    (opts.ttl ≠ 0 → opts.maxItems ≠ 0 →
      lookup env opts eo now name = ⟨.ok (addrs, none), ents, k⟩ →
      addrs ≠ []) ∧
    ((opts.ttl = 0 ∨ opts.maxItems = 0) → env.resolver name = ([], none) →
      (DialContext env dialer opts eo now rs network name).res =
        .error intnPanic) := by
  constructor
  · intro httl hmax hl heq
    subst heq
    have hcond := enabledCond opts hmax httl
    rcases hg : getOpt eo now name with ⟨ga, gb⟩
    rcases hr : env.resolver name with ⟨ra, re⟩
    simp only [lookup, hcond, Bool.false_eq_true, if_false, hg, hr,
      afterResolve, setOpt] at hl
    cases gb
    · rcases re with _ | e
      all_goals cases eo
      all_goals repeat' split at hl
      all_goals simp_all
    · repeat' split at hl
      all_goals simp_all
  · intro hd hres
    have hc : (opts.maxItems == 0 || opts.ttl == 0) = true := by
      rcases hd with h | h <;> simp [h]
    have hl : lookup env opts eo now name = ⟨.ok ([], none), eo, 1⟩ := by
      simp [lookup, hc, hres]
    rw [dialContext_empty env dialer opts eo now rs network name eo 1 hl]

/-- Witness for C10 at a concrete input: caching disabled and an
empty-but-successful resolution reach the `rand.Intn 0` panic. -/
theorem resolvedNonemptyOrIntnPanic_witness :
    (DialContext tEnvEmptyOk tDialer ⟨0, 1024⟩ (some []) 0 0 "tcp" "h").res =
      .error intnPanic :=
  (resolvedNonemptyOrIntnPanic String tEnvEmptyOk tDialer ⟨0, 1024⟩ (some [])
    0 0 "tcp" "h" [] (some []) 1).2 (Or.inl rfl) rfl

end Dial
